import Mathlib

/-!
Verification of the Windows install pipeline of `setup-swift`
(`src/windows-install.ts`) against its natural-language specification.

The TypeScript source is shallowly embedded: each stage of the pipeline is a
pure Lean function that, given an `Env` record holding the results of all
external collaborators (the tool cache store, the download transport, the
filesystem, subprocess exit codes, environment variables), returns the list
of observable `Event`s the stage performs together with a `Halt` value
recording whether control flow left the stage normally or via a propagated
exception.  JavaScript peculiarities that the claims hinge on (truthiness,
`null`/`undefined`, `String.prototype.trim`, `Array.prototype.reduce`
without an initial value, member access on `undefined`) are modelled
explicitly.
-/

namespace SetupSwift

/-- Package descriptor produced by `swiftPackage` (`src/swift-versions.ts`). -/
structure Package where
  version : String
  url : String
  name : String
deriving DecidableEq, Repr

/-- OS descriptor from `src/os.ts`; only its `name` field is used here. -/
structure System where
  name : String
deriving DecidableEq, Repr

/-- Shape of one record of the JSON payload printed by vswhere:
`properties.setupEngineFilePath`; the field may be absent (`undefined`). -/
structure VsProperties where
  setupEngineFilePath : Option String
deriving DecidableEq, Repr

/-- One installation record parsed from the vswhere JSON payload;
`installationPath` may be absent (`undefined`). -/
structure VisualStudio where
  installationPath : Option String
  properties : VsProperties
deriving DecidableEq, Repr

/-- Requirement constant returned by `vsRequirement`. -/
structure VsRequirement where
  version : String
  components : List String
deriving DecidableEq, Repr

/-- Observable actions performed by the pipeline, in program order. -/
inductive Event where
  | debug (msg : String)
  | info (msg : String)
  | infoVsArray (vs : List VisualStudio)
  | infoVsObj (vs : Option VisualStudio)
  | error (msg : String)
  | setFailed (msg : String)
  | cacheFind (key version : String)
  | setupKeysEv
  | downloadEv (url : String)
  | verifyEv (signaturePath installerPath : String)
  | cacheFileEv (file name key version : String)
  | execEv (cmd : String) (args : List String)
  | addPath (dir : String)
deriving DecidableEq, Repr

/-- How control flow leaves a stage: a normal return (including the early
`return`s after `core.setFailed`) or a propagated JavaScript exception. -/
inductive Halt where
  | normal
  | exn (msg : String)
deriving DecidableEq, Repr

/-- Results of every external collaborator the pipeline consults, fixed for
one run: cache store, gpg helpers, transport, filesystem, subprocess exit
codes and environment variables. -/
structure Env where
  platform : String
  cacheFound : Option String
  setupKeysOk : Bool
  downloadExeOk : Bool
  downloadSigOk : Bool
  verifyOk : Bool
  exeFile : String
  sigFile : String
  cacheDir : String
  systemDrive : Option String
  installerExit : Int
  fileExists : String → Bool
  vswherePathEnv : Option String
  whichVswhere : Option String
  programFilesX86 : String
  vsPayload : String
  vsPayloadParsed : Option (List VisualStudio)
  vsInstallerExit : Int
  supportExit : Int

/-- Decidable equality for `Except`, so that concrete results can be
checked by `decide`. -/
instance {ε α : Type} [DecidableEq ε] [DecidableEq α] : DecidableEq (Except ε α) := fun a b =>
  match a, b with
  | Except.error x, Except.error y =>
    if h : x = y then isTrue (by rw [h]) else isFalse (by intro hc; cases hc; exact h rfl)
  | Except.error _, Except.ok _ => isFalse (by intro hc; cases hc)
  | Except.ok _, Except.error _ => isFalse (by intro hc; cases hc)
  | Except.ok x, Except.ok y =>
    if h : x = y then isTrue (by rw [h]) else isFalse (by intro hc; cases hc; exact h rfl)

/-- JavaScript truthiness of a possibly-absent string: `undefined`/`null`
and the empty string are falsy. -/
def jsTruthy : Option String → Bool
  | none => false
  | some s => !(s == "")

/-- String interpolation of a possibly-absent value: JavaScript renders
`undefined` as the literal text "undefined". -/
def jsStr : Option String → String
  | none => "undefined"
  | some s => s

/-- Model of Node `path.join` on win32: segments joined by a backslash. -/
def pathJoin (parts : List String) : String :=
  String.intercalate "\\" parts

/-- Whitespace characters removed by `String.prototype.trim`. -/
def isWs (ch : Char) : Bool :=
  ch == ' ' || ch == '\t' || ch == '\n' || ch == '\r'

/-- Model of `String.prototype.trim`: strip leading and trailing whitespace. -/
def jsTrim (s : String) : String :=
  String.mk (((s.data.dropWhile isWs).reverse.dropWhile isWs).reverse)

/-- Cache-gate test from `install` line 128:
`swiftPath === null || swiftPath.trim().length == 0`. -/
def cacheMiss : Option String → Bool
  | none => true
  | some s => (jsTrim s).length == 0

/-- Split a character list at every occurrence of a separator character. -/
def splitOnChar (sep : Char) : List Char → List (List Char)
  | [] => [[]]
  | ch :: cs =>
    match splitOnChar sep cs with
    | [] => [[]]
    | g :: gs => if ch == sep then [] :: g :: gs else (ch :: g) :: gs

/-- Accumulate a decimal value, failing on any non-digit character. -/
def digitsVal (acc : Nat) : List Char → Option Nat
  | [] => some acc
  | ch :: cs => if ch.isDigit then digitsVal (acc * 10 + (ch.toNat - 48)) cs else none

/-- Parse one nonempty numeric version component. -/
def parseNumPart : List Char → Option Nat
  | [] => none
  | cs => digitsVal 0 cs

/-- Parse a plain `major.minor.patch` semantic version. -/
def parseSemver (s : String) : Option (Nat × Nat × Nat) :=
  match splitOnChar '.' s.data with
  | [a, b, c] =>
    match parseNumPart a, parseNumPart b, parseNumPart c with
    | some x, some y, some z => some (x, y, z)
    | _, _, _ => none
  | _ => none

/-- Lexicographic strict order on `major.minor.patch` triples, the semver
precedence order restricted to plain numeric versions. -/
def tripleLt : Nat × Nat × Nat → Nat × Nat × Nat → Bool
  | (a1, b1, c1), (a2, b2, c2) =>
    if a1 < a2 then true
    else if a2 < a1 then false
    else if b1 < b2 then true
    else if b2 < b1 then false
    else decide (c1 < c2)

/-- Model of the `semver` library `lt` used at `setupSupportFiles`: compares
two plain numeric versions and throws on an unparsable version string. -/
def semverLt (x y : String) : Except String Bool :=
  match parseSemver x, parseSemver y with
  | some tx, some ty => Except.ok (tripleLt tx ty)
  | _, _ => Except.error "TypeError: invalid version"

/-- Modelled from the spec: `setupKeys` (imported from `src/gpg.ts`, which is
not among the provided sources) fetches and imports the publisher signing
keys; per the spec, "this step itself can fail (key-server unreachable,
malformed key) and must be treated as fatal". -/
def setupKeysM (env : Env) : List Event × Except String Unit :=
  ([Event.setupKeysEv],
   if env.setupKeysOk then Except.ok () else Except.error "setupKeys failed")

/-- Modelled from the spec: `verify` (imported from `src/gpg.ts`, which is
not among the provided sources) checks the detached signature file against
the downloaded installer; per the spec, "Verification failure is fatal". -/
def verifyM (env : Env) (signature exe : String) : List Event × Except String Unit :=
  ([Event.verifyEv signature exe],
   if env.verifyOk then Except.ok () else Except.error "signature verification failed")

/-- Embedding of `download` (`windows-install.ts` lines 187-197): both
transfers are started together (`Promise.all`); failure of either rejects
the pair before the completion log. -/
def download (env : Env) (pkg : Package) : List Event × Except String (String × String) :=
  let es := [Event.debug "Downloading Swift for windows",
             Event.downloadEv pkg.url,
             Event.downloadEv (pkg.url ++ ".sig")]
  if env.downloadExeOk && env.downloadSigOk then
    (es ++ [Event.debug "Swift download complete"], Except.ok (env.exeFile, env.sigFile))
  else
    (es, Except.error "download failed")

/-- Embedding of the cache-miss branch of `install` (lines 129-143):
establish trust material, download installer and signature, verify, then
insert the installer into the tool cache; any failure rejects. -/
def fetchMiss (env : Env) (pkg : Package) (sysName version : String) :
    List Event × Except String String :=
  let es1 := [Event.debug "No cached installer found"]
  match setupKeysM env with
  | (esK, Except.error m) => (es1 ++ esK, Except.error m)
  | (esK, Except.ok _) =>
    match download env pkg with
    | (esD, Except.error m) => (es1 ++ esK ++ esD, Except.error m)
    | (esD, Except.ok (exe, signature)) =>
      match verifyM env signature exe with
      | (esV, Except.error m) => (es1 ++ esK ++ esD ++ esV, Except.error m)
      | (esV, Except.ok _) =>
        (es1 ++ esK ++ esD ++ esV ++
           [Event.cacheFileEv exe pkg.name ("swift-" ++ sysName) version],
         Except.ok (pathJoin [env.cacheDir, pkg.name]))

/-- Embedding of the cache gate of `install` (lines 126-146): a `null`,
empty or whitespace-only `toolCache.find` result takes the fetch branch,
otherwise the found path is reused as the installer path. -/
def fetchPhase (env : Env) (pkg : Package) (sysName version : String) :
    List Event × Except String String :=
  if cacheMiss env.cacheFound then
    fetchMiss env pkg sysName version
  else
    ([Event.debug "Cached installer found"], Except.ok (jsStr env.cacheFound))

/-- Drive-letter hint: `process.env.SystemDrive ?? "C:"` (line 160). -/
def systemDriveOr (env : Env) : String :=
  env.systemDrive.getD "C:"

/-- `swiftLibPath` of `install` (line 161). -/
def swiftLibPath (env : Env) : String :=
  pathJoin [systemDriveOr env, "Library"]

/-- Expected toolchain binary directory computed at lines 162-168. -/
def swiftInstallPath (env : Env) : String :=
  pathJoin [swiftLibPath env, "Developer", "Toolchains",
            "unknown-Asserts-development.xctoolchain", "usr\\bin"]

/-- Resolution of the vswhere location (`getVsToolsPath`, lines 200-224):
the `VSWHERE_PATH` override directory if truthy, else a hit on the
execution search path, else the fixed ProgramFiles(x86) location. -/
def vswhereResolved (env : Env) : String :=
  if jsTruthy env.vswherePathEnv then
    pathJoin [jsStr env.vswherePathEnv, "vswhere.exe"]
  else
    match env.whichVswhere with
    | some w => w
    | none => pathJoin [env.programFilesX86, "Microsoft Visual Studio\\Installer\\vswhere.exe"]

/-- Embedding of `getVsToolsPath` (lines 200-233): resolve the vswhere
location, then fail fatally (setFailed + throw) if no file exists there. -/
def getVsToolsPath (env : Env) : List Event × Except String String :=
  let vswhereToolExe := vswhereResolved env
  let es :=
    if jsTruthy env.vswherePathEnv then
      [Event.debug ("Using given vswhere-path: " ++ jsStr env.vswherePathEnv)]
    else
      match env.whichVswhere with
      | some w => [Event.debug ("Found tool in PATH: " ++ w)]
      | none => [Event.debug ("Trying Visual Studio-installed path: " ++ vswhereToolExe)]
  if !(env.fileExists vswhereToolExe) then
    (es ++ [Event.setFailed "Action requires the path to where vswhere.exe exists"],
     Except.error "Error")
  else
    (es, Except.ok vswhereToolExe)

/-- Requirement constant of `vsRequirement` (lines 242-250). -/
def vsRequirement (_pkg : Package) : VsRequirement :=
  { version := "16",
    components := ["Microsoft.VisualStudio.Component.VC.Tools.x86.x64",
                   "Microsoft.VisualStudio.Component.Windows10SDK.17763"] }

/-- `Array.prototype.reduce` without an initial value, as used at lines
320-322: the first element seeds the accumulator (and so receives no
`--add` flag and no quoting); an empty array throws. -/
def reduceAdd : List String → Except String String
  | [] => Except.error "TypeError: reduce of empty array with no initial value"
  | c :: cs =>
    Except.ok (cs.foldl (fun previous current => previous ++ " --add \"" ++ current ++ "\"") c)

/-- The modify-engine argument string built at lines 318-323. -/
def vsInstallerExecStr (installationPath : String) (components : List String) :
    Except String String :=
  (reduceAdd components).map
    (fun adds => "modify  --installPath \"" ++ installationPath ++ "\" " ++ adds ++ " --quiet")

/-- The four copy commands of `setupSupportFiles` joined by `&&`
(lines 259-264). -/
def copyCommands : String :=
  String.intercalate "&&"
    ["copy /Y %SDKROOT%\\usr\\share\\ucrt.modulemap \"%UniversalCRTSdkDir%\\Include\\%UCRTVersion%\\ucrt\\module.modulemap\"",
     "copy /Y %SDKROOT%\\usr\\share\\visualc.modulemap \"%VCToolsInstallDir%\\include\\module.modulemap\"",
     "copy /Y %SDKROOT%\\usr\\share\\visualc.apinotes \"%VCToolsInstallDir%\\include\\visualc.apinotes\"",
     "copy /Y %SDKROOT%\\usr\\share\\winsdk.modulemap \"%UniversalCRTSdkDir%\\Include\\%UCRTVersion%\\um\\module.modulemap\""]

/-- Embedding of `setupSupportFiles` (lines 253-272): when the toolchain
version is below "5.4.2", run the copy commands inside the native developer
prompt and log the exit code (no `setFailed` on a non-zero code). -/
def setupSupportFiles (env : Env) (pkg : Package) (vsInstallPath : String) :
    List Event × Halt :=
  match semverLt pkg.version "5.4.2" with
  | Except.error m => ([], Halt.exn m)
  | Except.ok true =>
    let nativeToolsScriptx86 := pathJoin [vsInstallPath, "VC\\Auxiliary\\Build\\vcvars32.bat"]
    ([Event.execEv "cmd /c" ["\"\"" ++ nativeToolsScriptx86 ++ "\"&&" ++ copyCommands ++ "\""],
      Event.info ("Ran command for swift and exited with code: " ++ toString env.supportExit)],
     Halt.normal)
  | Except.ok false => ([], Halt.normal)

/-- Embedding of `setupRequiredTools` (lines 284-338): locate vswhere, query
installations as JSON, take the first record, modify the installation to add
the required components, then run the support-file patch. -/
def setupRequiredTools (env : Env) (pkg : Package) : List Event × Halt :=
  match getVsToolsPath env with
  | (es1, Except.error m) => (es1, Halt.exn m)
  | (es1, Except.ok vswhereExe) =>
    let requirement := vsRequirement pkg
    let vsWhereExec := "-products * -format json -utf8 -latest -version \"" ++ requirement.version ++ "\""
    let es2 := es1 ++ [Event.execEv ("\"" ++ vswhereExe ++ "\" " ++ vsWhereExec) [],
                       Event.info ("got payload: " ++ env.vsPayload)]
    match env.vsPayloadParsed with
    | none => (es2, Halt.exn "SyntaxError: unexpected token in JSON")
    | some vsInstallations =>
      let es3 := es2 ++ [Event.infoVsArray vsInstallations]
      match vsInstallations.head? with
      | none =>
        (es3 ++ [Event.infoVsObj none],
         Halt.exn "TypeError: cannot read installationPath of undefined")
      | some vs =>
        let es4 := es3 ++ [Event.infoVsObj (some vs)]
        if !(jsTruthy vs.installationPath) then
          (es4 ++ [Event.setFailed ("Unable to find any visual studio installation for version: " ++ requirement.version ++ ".")],
           Halt.normal)
        else
          match vsInstallerExecStr (jsStr vs.installationPath) requirement.components with
          | Except.error m => (es4, Halt.exn m)
          | Except.ok installerArgs =>
            let es5 := es4 ++ [Event.execEv ("\"" ++ jsStr vs.properties.setupEngineFilePath ++ "\" " ++ installerArgs) []]
            if env.vsInstallerExit != 0 then
              (es5 ++ [Event.setFailed ("Visual Studio installer failed to install required components with exit code: " ++ toString env.vsInstallerExit ++ ".")],
               Halt.normal)
            else
              match setupSupportFiles env pkg (jsStr vs.installationPath) with
              | (es6, h) => (es5 ++ es6, h)

/-- Embedding of `install` lines 148-185: run the installer quietly, then
decide success from the exit code and the expected directory
(`code != 0 || !existsSync(dir)` fails), then register the toolchain binary
directory and the two auxiliary directories on PATH and provision the
required build tools. -/
def runInstallerAndLocate (env : Env) (pkg : Package) (swiftPath : String) :
    List Event × Halt :=
  let es := [Event.debug "Running installer",
             Event.execEv ("\"" ++ swiftPath ++ "\" -q") []]
  if env.installerExit != 0 || !(env.fileExists (swiftInstallPath env)) then
    (es ++ [Event.setFailed ("Swift installer failed with exit code: " ++ toString env.installerExit)],
     Halt.normal)
  else
    let es2 := es ++ [Event.addPath (swiftInstallPath env)]
    let additionalPaths := [pathJoin [swiftLibPath env, "Swift-development\\bin"],
                            pathJoin [swiftLibPath env, "icu-67\\usr\\bin"]]
    let es3 := es2 ++ additionalPaths.map Event.addPath
    let es4 := es3 ++ [Event.debug ("Swift installed at \"" ++ swiftInstallPath env ++ "\"")]
    match setupRequiredTools env pkg with
    | (es5, h) => (es4 ++ es5, h)

/-- Embedding of the exported `install` entry point (lines 119-185). -/
def install (env : Env) (swiftPackage : String → System → Package)
    (version : String) (system : System) : List Event × Halt :=
  if env.platform != "win32" then
    ([Event.error "Trying to run windows installer on non-windows os"], Halt.normal)
  else
    let swiftPkg := swiftPackage version system
    let es0 := [Event.cacheFind ("swift-" ++ system.name) version]
    match fetchPhase env swiftPkg system.name version with
    | (es1, Except.error m) => (es0 ++ es1, Halt.exn m)
    | (es1, Except.ok swiftPath) =>
      match runInstallerAndLocate env swiftPkg swiftPath with
      | (es2, h) => (es0 ++ es1 ++ es2, h)

/-- Is the event a subprocess execution? -/
def isExec : Event → Bool
  | Event.execEv _ _ => true
  | _ => false

/-- Is the event a tool-cache insertion? -/
def isCacheFile : Event → Bool
  | Event.cacheFileEv _ _ _ _ => true
  | _ => false

/-- Is the event the trust-material setup? -/
def isSetupKeys : Event → Bool
  | Event.setupKeysEv => true
  | _ => false

/-- Is the event a `core.setFailed` call (the run is marked failed)? -/
def isSetFailed : Event → Bool
  | Event.setFailed _ => true
  | _ => false

/-- Is the event a signature verification? -/
def isVerify : Event → Bool
  | Event.verifyEv _ _ => true
  | _ => false

/-- The directories passed to `core.addPath`, in call order. -/
def addPathDirs (es : List Event) : List String :=
  es.filterMap fun e =>
    match e with
    | Event.addPath d => some d
    | _ => none

/-- Effect of a trace on an initial PATH value: `core.addPath` prepends the
directory and touches nothing else. -/
def applyAddPaths (es : List Event) (initial : List String) : List String :=
  es.foldl
    (fun acc e =>
      match e with
      | Event.addPath d => d :: acc
      | _ => acc)
    initial

/-- The elements of a list strictly before the first one satisfying `p`. -/
def beforeFirst {α : Type} (p : α → Bool) : List α → List α
  | [] => []
  | a :: as => if p a then [] else a :: beforeFirst p as

/-- Number of occurrences of `needle` as a sublist starting at each
position of the haystack. -/
def countOccsAux (needle : List Char) : List Char → Nat
  | [] => 0
  | c :: cs => (if needle.isPrefixOf (c :: cs) then 1 else 0) + countOccsAux needle cs

/-- Number of occurrences of a substring in a string. -/
def countOccs (needle hay : String) : Nat :=
  countOccsAux needle.data hay.data

/-- A version resolver with fixed url and artifact name, standing in for
`swiftPackage` in concrete runs. -/
def resolver1 : String → System → Package := fun v _ =>
  { version := v, url := "https://swift.org/builds/swift.exe", name := "swift-installer.exe" }

/-- Concrete OS descriptor for concrete runs. -/
def sys1 : System := { name := "windows" }

/-- Concrete package for concrete runs. -/
def pkgBase : Package :=
  { version := "5.6.0", url := "https://swift.org/builds/swift.exe", name := "swift-installer.exe" }

/-- Concrete package below the support-file threshold. -/
def pkgOld : Package :=
  { version := "5.4.0", url := "https://swift.org/builds/swift.exe", name := "swift-installer.exe" }

/-- Baseline concrete environment: Windows, cache miss, all collaborators
succeed, every file exists, vswhere override set, empty vswhere payload. -/
def envBase : Env :=
  { platform := "win32", cacheFound := none, setupKeysOk := true,
    downloadExeOk := true, downloadSigOk := true, verifyOk := true,
    exeFile := "C:\\temp\\dl1", sigFile := "C:\\temp\\dl2",
    cacheDir := "C:\\cache\\dir", systemDrive := none, installerExit := 0,
    fileExists := fun _ => true, vswherePathEnv := some "D:\\tools",
    whichVswhere := none, programFilesX86 := "C:\\Program Files (x86)",
    vsPayload := "[]", vsPayloadParsed := some [], vsInstallerExit := 0,
    supportExit := 0 }

/-- Non-Windows environment. -/
def envNonWin : Env := { envBase with platform := "linux" }

/-- Cache hit with the installer reporting a non-zero exit code while the
expected install directory exists. -/
def envC2 : Env :=
  { envBase with cacheFound := some "C:\\cached\\swift-installer.exe", installerExit := 1 }

/-- Installer reports a non-zero exit code and the directory is absent. -/
def envC2b : Env := { envBase with installerExit := 1, fileExists := fun _ => false }

/-- A vswhere payload whose first record lacks `installationPath`. -/
def envC3b : Env :=
  { envBase with
      vsPayloadParsed := some [{ installationPath := none,
                                 properties := { setupEngineFilePath := none } }] }

/-- A vswhere payload with one complete installation record. -/
def envC6 : Env :=
  { envBase with
      vsPayloadParsed := some [{ installationPath := some "C:\\VS",
                                 properties := { setupEngineFilePath := some "C:\\VS\\Installer\\vs_installer.exe" } }] }

/-- vswhere.exe exists at the override location but its companion
vs_installer.exe does not. -/
def envC8 : Env :=
  { envBase with fileExists := fun s => s == "D:\\tools\\vswhere.exe" }

/-- vswhere.exe missing everywhere. -/
def envC8b : Env := { envBase with fileExists := fun _ => false }

/-- Support-file patch exits non-zero. -/
def envC9 : Env := { envBase with supportExit := 1 }

theorem string_length_zero_iff (s : String) : s.length = 0 ↔ s = "" := by
  cases s with
  | mk data =>
    constructor
    · intro h
      have hd : data = [] := List.length_eq_zero.mp h
      rw [hd]
    · intro h
      have hd : data = [] := by
        have := congrArg String.data h
        simpa using this
      simp [String.length, hd]

theorem fetchMiss_debug_mem (env : Env) (pkg : Package) (n v : String) :
    Event.debug "No cached installer found" ∈ (fetchMiss env pkg n v).1 := by
  cases hk : env.setupKeysOk <;> cases h1 : env.downloadExeOk <;>
    cases h2 : env.downloadSigOk <;> cases hvv : env.verifyOk <;>
      simp [fetchMiss, setupKeysM, download, verifyM, hk, h1, h2, hvv]

theorem runInstaller_exec_mem (env : Env) (pkg : Package) (sp : String) :
    Event.execEv ("\"" ++ sp ++ "\" -q") [] ∈ (runInstallerAndLocate env pkg sp).1 := by
  cases h : (env.installerExit != 0 || !(env.fileExists (swiftInstallPath env))) <;>
    simp [runInstallerAndLocate, h]

theorem getVsToolsPath_no_exec (env : Env) :
    (getVsToolsPath env).1.any isExec = false := by
  cases h : jsTruthy env.vswherePathEnv <;> cases hw : env.whichVswhere <;>
    cases hf : env.fileExists (vswhereResolved env) <;>
      simp [getVsToolsPath, h, hw, hf, isExec]

theorem getVsToolsPath_found_clean (env : Env)
    (h : env.fileExists (vswhereResolved env) = true) :
    (getVsToolsPath env).2 = Except.ok (vswhereResolved env)
    ∧ (getVsToolsPath env).1.any isSetFailed = false := by
  cases hj : jsTruthy env.vswherePathEnv <;> cases hw : env.whichVswhere <;>
    simp [getVsToolsPath, hj, hw, h, isSetFailed]

theorem applyAddPaths_extends (es : List Event) :
    ∀ initial : List String, ∃ pre, applyAddPaths es initial = pre ++ initial := by
  induction es with
  | nil => intro initial; exact ⟨[], rfl⟩
  | cons e es ih =>
    intro initial
    cases e <;> try exact ih initial
    case addPath d =>
      obtain ⟨pre, hp⟩ := ih (d :: initial)
      refine ⟨pre ++ [d], ?_⟩
      show applyAddPaths es (d :: initial) = (pre ++ [d]) ++ initial
      rw [hp]
      simp

theorem addPathDirs_append (l1 l2 : List Event) :
    addPathDirs (l1 ++ l2) = addPathDirs l1 ++ addPathDirs l2 := by
  simp [addPathDirs, List.filterMap_append]

theorem addPathDirs_getVsToolsPath (env : Env) :
    addPathDirs (getVsToolsPath env).1 = [] := by
  cases h : jsTruthy env.vswherePathEnv <;>
    cases hw : env.whichVswhere <;>
      cases hf : env.fileExists (vswhereResolved env) <;>
        simp [getVsToolsPath, h, hw, hf, addPathDirs]

theorem addPathDirs_setupSupportFiles (env : Env) (pkg : Package) (ip : String) :
    addPathDirs (setupSupportFiles env pkg ip).1 = [] := by
  unfold setupSupportFiles
  cases h : semverLt pkg.version "5.4.2" with
  | error m => simp [h, addPathDirs]
  | ok b => cases b <;> simp [h, addPathDirs]

theorem addPathDirs_setupRequiredTools (env : Env) (pkg : Package) :
    addPathDirs (setupRequiredTools env pkg).1 = [] := by
  have hvs := addPathDirs_getVsToolsPath env
  unfold setupRequiredTools
  rcases hg : getVsToolsPath env with ⟨es1, r⟩
  rw [hg] at hvs
  simp [addPathDirs] at hvs
  cases r with
  | error m => simpa [addPathDirs] using hvs
  | ok vswhereExe =>
    cases hp : env.vsPayloadParsed with
    | none => simp [addPathDirs]; exact hvs
    | some installs =>
      cases hh : installs.head? with
      | none => simp [hh, addPathDirs]; exact hvs
      | some vs =>
        cases ht : jsTruthy vs.installationPath with
        | false => simp [hh, ht, addPathDirs]; exact hvs
        | true =>
          have hsf := addPathDirs_setupSupportFiles env pkg (jsStr vs.installationPath)
          rcases hs : setupSupportFiles env pkg (jsStr vs.installationPath) with ⟨es6, h6⟩
          rw [hs] at hsf
          simp [addPathDirs] at hsf
          cases hi : env.vsInstallerExit != 0 <;>
            simp [hh, ht, hi, hs, vsRequirement, vsInstallerExecStr, reduceAdd,
                  Except.map, addPathDirs] <;>
            first
            | exact ⟨hvs, hsf⟩
            | exact hvs

/-- C10: on a non-win32 platform, the Windows install entry point logs one
error and returns normally at once: the run is not marked failed and no
cache lookup, download, verification, subprocess execution or PATH
modification happens (the trace holds exactly the one error log). -/
theorem c10_non_windows_early_return (env : Env)
    (swiftPackage : String → System → Package) (version : String) (system : System)
    (hplat : env.platform ≠ "win32") :
    install env swiftPackage version system =
      ([Event.error "Trying to run windows installer on non-windows os"], Halt.normal) := by
  simp [install, hplat]

/-- C10 witness: the non-win32 early return evaluated on a linux platform
descriptor. -/
theorem c10_witness :
    install envNonWin resolver1 "5.6.0" sys1 =
      ([Event.error "Trying to run windows installer on non-windows os"], Halt.normal) :=
  c10_non_windows_early_return envNonWin resolver1 "5.6.0" sys1 (by decide)

/-- C2 counterexample: with a cached installer, exit code 1 and the expected
install directory present (`fileExists` is constantly true), the run is
marked failed and the toolchain directory is never registered — refuting
"directory present implies success regardless of a non-zero exit code". -/
theorem c2_counterexample :
    envC2.installerExit ≠ 0
    ∧ envC2.fileExists (swiftInstallPath envC2) = true
    ∧ (install envC2 resolver1 "5.6.0" sys1).1.any isSetFailed = true
    ∧ Event.addPath (swiftInstallPath envC2) ∉ (install envC2 resolver1 "5.6.0" sys1).1 := by
  decide

/-- C3 evaluated at the failing input: an empty vswhere result list makes
`setupRequiredTools` dereference `installationPath` on the missing first
record and escape with a TypeError instead of failing via `setFailed`;
while a present first record lacking `installationPath` does produce the
fatal message naming the required version. -/
theorem c3_empty_query_dereferences_missing_record :
    envBase.vsPayloadParsed = some []
    ∧ (setupRequiredTools envBase pkgBase).2 =
        Halt.exn "TypeError: cannot read installationPath of undefined"
    ∧ (setupRequiredTools envBase pkgBase).1.any isSetFailed = false
    ∧ Event.setFailed "Unable to find any visual studio installation for version: 16."
        ∈ (setupRequiredTools envC3b pkgBase).1
    ∧ (setupRequiredTools envC3b pkgBase).2 = Halt.normal := by
  decide

set_option maxRecDepth 4000 in
/-- C6 evaluated at the fixed requirement: with two required components the
built modify-engine command contains only one `--add` flag — the first
component seeds the `reduce` accumulator and is passed as a bare unquoted
token, so not every required component gets an add-component argument. -/
theorem c6_first_component_lacks_add_flag :
    (vsRequirement pkgBase).components.length = 2
    ∧ vsInstallerExecStr "C:\\VS" (vsRequirement pkgBase).components =
        Except.ok "modify  --installPath \"C:\\VS\" Microsoft.VisualStudio.Component.VC.Tools.x86.x64 --add \"Microsoft.VisualStudio.Component.Windows10SDK.17763\" --quiet"
    ∧ countOccs "--add" "modify  --installPath \"C:\\VS\" Microsoft.VisualStudio.Component.VC.Tools.x86.x64 --add \"Microsoft.VisualStudio.Component.Windows10SDK.17763\" --quiet" = 1
    ∧ Event.execEv "\"C:\\VS\\Installer\\vs_installer.exe\" modify  --installPath \"C:\\VS\" Microsoft.VisualStudio.Component.VC.Tools.x86.x64 --add \"Microsoft.VisualStudio.Component.Windows10SDK.17763\" --quiet" []
        ∈ (setupRequiredTools envC6 pkgBase).1 := by
  decide

/-- C9 counterexample: for version 5.4.0 with the copy commands exiting 1,
`setupSupportFiles` runs the patch and logs the exit code but the run is
not marked failed (no `setFailed`), unlike every other stage — refuting
"it marks the run failed like every other stage does". -/
theorem c9_counterexample :
    envC9.supportExit ≠ 0
    ∧ (setupSupportFiles envC9 pkgOld "C:\\VS").1.any isExec = true
    ∧ (setupSupportFiles envC9 pkgOld "C:\\VS").1.any isSetFailed = false
    ∧ (setupSupportFiles envC9 pkgOld "C:\\VS").2 = Halt.normal := by
  decide

/-- C1: on every Windows run that misses the cache, if any cache insertion
or subprocess execution happens at all then the events strictly before the
first of them include the trust-material setup and the verification of the
downloaded signature file against the downloaded installer; and if
verification fails, no subprocess is ever executed. -/
theorem c1_trust_established_before_cache_and_run (env : Env)
    (swiftPackage : String → System → Package) (version : String) (system : System)
    (hplat : env.platform = "win32") (hmiss : cacheMiss env.cacheFound = true) :
    (((install env swiftPackage version system).1.any
        (fun e => isExec e || isCacheFile e)) = true →
       ((beforeFirst (fun e => isExec e || isCacheFile e)
           (install env swiftPackage version system).1).any isSetupKeys) = true
       ∧ Event.verifyEv env.sigFile env.exeFile
           ∈ beforeFirst (fun e => isExec e || isCacheFile e)
               (install env swiftPackage version system).1)
    ∧ (env.verifyOk = false →
        (install env swiftPackage version system).1.any isExec = false) := by
  cases hk : env.setupKeysOk <;> cases h1 : env.downloadExeOk <;>
    cases h2 : env.downloadSigOk <;> cases hv : env.verifyOk <;>
      simp [install, hplat, fetchPhase, hmiss, fetchMiss, setupKeysM, download, verifyM,
            hk, h1, h2, hv, beforeFirst, isExec, isCacheFile, isSetupKeys]

/-- C1 witness: a concrete cache-miss run on win32 in which the downloaded
signature is verified before the first cache insertion or execution, and a
concrete run with failing verification in which nothing is executed. -/
theorem c1_witness :
    ((install envBase resolver1 "5.6.0" sys1).1.any
       (fun e => isExec e || isCacheFile e)) = true
    ∧ Event.verifyEv envBase.sigFile envBase.exeFile
        ∈ beforeFirst (fun e => isExec e || isCacheFile e)
            (install envBase resolver1 "5.6.0" sys1).1
    ∧ (install { envBase with verifyOk := false } resolver1 "5.6.0" sys1).1.any isExec = false := by
  refine ⟨by decide, ?_, ?_⟩
  · exact ((c1_trust_established_before_cache_and_run envBase resolver1 "5.6.0" sys1
      rfl (by decide)).1 (by decide)).2
  · exact (c1_trust_established_before_cache_and_run { envBase with verifyOk := false }
      resolver1 "5.6.0" sys1 rfl (by decide)).2 (by decide)

/-- C2 amended: the toolchain directory is registered (success) exactly when
the installer exits 0 AND the expected directory exists; otherwise — a
non-zero exit code OR a missing directory — the run is marked failed with
the exit code surfaced and no directory is registered on PATH. -/
theorem c2_amended_post_install_decision (env : Env) (pkg : Package) (swiftPath : String) :
    (Event.addPath (swiftInstallPath env) ∈ (runInstallerAndLocate env pkg swiftPath).1
       ↔ env.installerExit = 0 ∧ env.fileExists (swiftInstallPath env) = true)
    ∧ (¬(env.installerExit = 0 ∧ env.fileExists (swiftInstallPath env) = true) →
        Event.setFailed ("Swift installer failed with exit code: " ++ toString env.installerExit)
          ∈ (runInstallerAndLocate env pkg swiftPath).1
        ∧ addPathDirs (runInstallerAndLocate env pkg swiftPath).1 = []) := by
  by_cases he : env.installerExit = 0 <;> cases hd : env.fileExists (swiftInstallPath env) <;>
    simp [runInstallerAndLocate, he, hd, bne_iff_ne, addPathDirs]

/-- C2 witness: exit code 1 with the directory absent is fatal, surfaces the
exit code and registers nothing. -/
theorem c2_witness :
    Event.setFailed ("Swift installer failed with exit code: " ++ toString envC2b.installerExit)
      ∈ (runInstallerAndLocate envC2b pkgBase "C:\\installer.exe").1
    ∧ addPathDirs (runInstallerAndLocate envC2b pkgBase "C:\\installer.exe").1 = [] :=
  (c2_amended_post_install_decision envC2b pkgBase "C:\\installer.exe").2 (by decide)

/-- C4: the cache gate treats a null, empty or whitespace-only find result
exactly as "not found" (the run proceeds to the fetch branch), and any
value treated as a hit is non-empty after trimming and is the exact
installer path later executed. -/
theorem c4_cache_gate_blank_is_not_found (env : Env)
    (swiftPackage : String → System → Package) (version : String) (system : System)
    (hplat : env.platform = "win32") :
    (cacheMiss env.cacheFound = true ↔
       env.cacheFound = none ∨ ∃ s, env.cacheFound = some s ∧ jsTrim s = "")
    ∧ (cacheMiss env.cacheFound = true →
        Event.debug "No cached installer found" ∈ (install env swiftPackage version system).1)
    ∧ (∀ s, env.cacheFound = some s → cacheMiss env.cacheFound = false →
        jsTrim s ≠ ""
        ∧ Event.execEv ("\"" ++ s ++ "\" -q") [] ∈ (install env swiftPackage version system).1) := by
  refine ⟨?_, ?_, ?_⟩
  · cases hc : env.cacheFound with
    | none => simp [cacheMiss]
    | some s => simp [cacheMiss, string_length_zero_iff]
  · intro hmiss
    have hd := fetchMiss_debug_mem env (swiftPackage version system) system.name version
    rcases hm : fetchMiss env (swiftPackage version system) system.name version with ⟨es1, r⟩
    rw [hm] at hd
    simp only at hd
    cases r <;> simp [install, hplat, fetchPhase, hmiss, hm, hd]
  · intro s hc hmiss
    have hne : jsTrim s ≠ "" := by
      intro hemp
      rw [hc] at hmiss
      simp [cacheMiss, hemp] at hmiss
    refine ⟨hne, ?_⟩
    have hx := runInstaller_exec_mem env (swiftPackage version system) s
    rcases hr : runInstallerAndLocate env (swiftPackage version system) s with ⟨es2, h2⟩
    rw [hr] at hx
    simp only at hx
    rw [hc] at hmiss
    simp [install, hplat, fetchPhase, hc, hmiss, jsStr, hr, hx]

/-- C4 witness: a concrete cache hit whose path is non-blank after trimming
and is executed, and a concrete whitespace-only result taking the fetch
branch. -/
theorem c4_witness :
    (jsTrim "C:\\cached\\swift-installer.exe" ≠ ""
       ∧ Event.execEv ("\"" ++ "C:\\cached\\swift-installer.exe" ++ "\" -q") []
           ∈ (install envC2 resolver1 "5.6.0" sys1).1)
    ∧ Event.debug "No cached installer found"
        ∈ (install { envBase with cacheFound := some "  " } resolver1 "5.6.0" sys1).1 := by
  refine ⟨?_, ?_⟩
  · exact (c4_cache_gate_blank_is_not_found envC2 resolver1 "5.6.0" sys1 rfl).2.2
      "C:\\cached\\swift-installer.exe" rfl (by decide)
  · exact (c4_cache_gate_blank_is_not_found { envBase with cacheFound := some "  " }
      resolver1 "5.6.0" sys1 rfl).2.1 (by decide)

/-- C5: for any toolchain version parsing as a plain `major.minor.patch`
triple, the legacy support-file patch executes its copy commands iff the
triple is strictly below the threshold (5, 4, 2); when it runs, the exec
uses the native developer prompt wrapping the fixed copy-command list. -/
theorem c5_support_patch_iff_below_threshold (env : Env) (pkg : Package) (ip : String)
    (a b c : Nat) (hv : parseSemver pkg.version = some (a, b, c)) :
    ((setupSupportFiles env pkg ip).1.any isExec = true ↔ tripleLt (a, b, c) (5, 4, 2) = true)
    ∧ (tripleLt (a, b, c) (5, 4, 2) = true →
       Event.execEv "cmd /c"
         ["\"\"" ++ pathJoin [ip, "VC\\Auxiliary\\Build\\vcvars32.bat"] ++ "\"&&" ++ copyCommands ++ "\""]
         ∈ (setupSupportFiles env pkg ip).1) := by
  have h542 : parseSemver "5.4.2" = some (5, 4, 2) := by decide
  cases hlt : tripleLt (a, b, c) (5, 4, 2) <;>
    simp [setupSupportFiles, semverLt, hv, h542, hlt, isExec]

/-- C5 witness: version 5.4.1 triggers the patch; 5.4.2 and 5.5.0 do not. -/
theorem c5_witness :
    (setupSupportFiles envBase { pkgBase with version := "5.4.1" } "C:\\VS").1.any isExec = true
    ∧ (setupSupportFiles envBase { pkgBase with version := "5.4.2" } "C:\\VS").1.any isExec = false
    ∧ (setupSupportFiles envBase { pkgBase with version := "5.5.0" } "C:\\VS").1.any isExec = false := by
  refine ⟨(c5_support_patch_iff_below_threshold envBase { pkgBase with version := "5.4.1" }
    "C:\\VS" 5 4 1 (by decide)).1.mpr (by decide), by decide, by decide⟩

/-- C7: on post-install success (exit 0 and directory present) the PATH
registrations are exactly the toolchain binary directory first, then the
two fixed auxiliary directories in declared order; and for any initial
PATH, applying the whole trace only prepends entries — every pre-existing
entry survives as a suffix. -/
theorem c7_path_registration_additive_ordered (env : Env) (pkg : Package) (swiftPath : String)
    (hexit : env.installerExit = 0)
    (hdir : env.fileExists (swiftInstallPath env) = true) :
    addPathDirs (runInstallerAndLocate env pkg swiftPath).1 =
      [swiftInstallPath env,
       pathJoin [swiftLibPath env, "Swift-development\\bin"],
       pathJoin [swiftLibPath env, "icu-67\\usr\\bin"]]
    ∧ ∀ initial : List String, ∃ pre,
        applyAddPaths (runInstallerAndLocate env pkg swiftPath).1 initial = pre ++ initial := by
  constructor
  · have h := addPathDirs_setupRequiredTools env pkg
    rcases hs : setupRequiredTools env pkg with ⟨es5, h5⟩
    rw [hs] at h
    simp [addPathDirs] at h
    simp [runInstallerAndLocate, hexit, hdir, hs, addPathDirs]
    exact h
  · intro initial
    exact applyAddPaths_extends _ initial

/-- C7 witness: the three registrations on a concrete successful run. -/
theorem c7_witness :
    addPathDirs (runInstallerAndLocate envBase pkgBase "C:\\installer.exe").1 =
      [swiftInstallPath envBase,
       pathJoin [swiftLibPath envBase, "Swift-development\\bin"],
       pathJoin [swiftLibPath envBase, "icu-67\\usr\\bin"]] :=
  (c7_path_registration_additive_ordered envBase pkgBase "C:\\installer.exe" rfl rfl).1

/-- C8 counterexample: with the override directory set, vswhere.exe present
there but the companion vs_installer.exe absent, resolution succeeds and
nothing fails fatally — refuting "if the query tool or its companion
modify-engine executable does not exist at the resolved location, the run
fails fatally". -/
theorem c8_counterexample :
    envC8.fileExists "D:\\tools\\vswhere.exe" = true
    ∧ envC8.fileExists "D:\\tools\\vs_installer.exe" = false
    ∧ (getVsToolsPath envC8).2 = Except.ok "D:\\tools\\vswhere.exe"
    ∧ (getVsToolsPath envC8).1.any isSetFailed = false := by
  decide

/-- C8 amended: the query tool is resolved in the preference order override
directory / search path / fixed ProgramFiles(x86) location; if vswhere.exe
does not exist at the resolved location the run fails fatally with a
descriptive message and provisioning never executes anything; only the
query tool is checked (the modify engine path comes from the query
output). -/
theorem c8_amended_resolution_gate (env : Env) (pkg : Package) :
    (jsTruthy env.vswherePathEnv = true →
       vswhereResolved env = pathJoin [jsStr env.vswherePathEnv, "vswhere.exe"])
    ∧ (∀ w, jsTruthy env.vswherePathEnv = false → env.whichVswhere = some w →
       vswhereResolved env = w)
    ∧ (jsTruthy env.vswherePathEnv = false → env.whichVswhere = none →
       vswhereResolved env =
         pathJoin [env.programFilesX86, "Microsoft Visual Studio\\Installer\\vswhere.exe"])
    ∧ (env.fileExists (vswhereResolved env) = false →
        Event.setFailed "Action requires the path to where vswhere.exe exists"
          ∈ (getVsToolsPath env).1
        ∧ (getVsToolsPath env).2 = Except.error "Error"
        ∧ (setupRequiredTools env pkg).1.any isExec = false
        ∧ (setupRequiredTools env pkg).2 = Halt.exn "Error")
    ∧ (env.fileExists (vswhereResolved env) = true →
        (getVsToolsPath env).2 = Except.ok (vswhereResolved env)
        ∧ (getVsToolsPath env).1.any isSetFailed = false) := by
  refine ⟨?_, ?_, ?_, ?_, ?_⟩
  · intro h; simp [vswhereResolved, h]
  · intro w h hw; simp [vswhereResolved, h, hw]
  · intro h hw; simp [vswhereResolved, h, hw]
  · intro h
    have hne := getVsToolsPath_no_exec env
    have hmem : Event.setFailed "Action requires the path to where vswhere.exe exists"
        ∈ (getVsToolsPath env).1 := by
      simp [getVsToolsPath, h]
    have h2 : (getVsToolsPath env).2 = Except.error "Error" := by
      simp [getVsToolsPath, h]
    refine ⟨hmem, h2, ?_, ?_⟩
    · rcases hg : getVsToolsPath env with ⟨es1, r⟩
      rw [hg] at h2 hne
      simp only at h2 hne
      rw [h2] at hg
      simp [setupRequiredTools, hg, hne]
    · rcases hg : getVsToolsPath env with ⟨es1, r⟩
      rw [hg] at h2
      simp only at h2
      rw [h2] at hg
      simp [setupRequiredTools, hg]
  · intro h
    exact getVsToolsPath_found_clean env h

/-- C8 witness: with vswhere.exe missing everywhere, resolution fails
fatally with the descriptive message and no provisioning subprocess runs. -/
theorem c8_witness :
    Event.setFailed "Action requires the path to where vswhere.exe exists"
      ∈ (getVsToolsPath envC8b).1
    ∧ (setupRequiredTools envC8b pkgBase).1.any isExec = false
    ∧ (setupRequiredTools envC8b pkgBase).2 = Halt.exn "Error" := by
  have h := (c8_amended_resolution_gate envC8b pkgBase).2.2.2.1 (by decide)
  exact ⟨h.1, h.2.2.1, h.2.2.2⟩

/-- C9 amended: whenever the support-file patch runs, the resulting exit
code is reported via an info log, but — unlike the other stages — a
non-zero code does not mark the run failed and control returns normally. -/
theorem c9_amended_logged_not_failed (env : Env) (pkg : Package) (ip : String)
    (a b c : Nat) (hv : parseSemver pkg.version = some (a, b, c))
    (hlt : tripleLt (a, b, c) (5, 4, 2) = true) :
    Event.info ("Ran command for swift and exited with code: " ++ toString env.supportExit)
      ∈ (setupSupportFiles env pkg ip).1
    ∧ (setupSupportFiles env pkg ip).1.any isSetFailed = false
    ∧ (setupSupportFiles env pkg ip).2 = Halt.normal := by
  have h542 : parseSemver "5.4.2" = some (5, 4, 2) := by decide
  simp [setupSupportFiles, semverLt, hv, h542, hlt, isSetFailed]

/-- C9 witness: the patch with exit code 1 logs the code and does not mark
the run failed. -/
theorem c9_witness :
    Event.info ("Ran command for swift and exited with code: " ++ toString envC9.supportExit)
      ∈ (setupSupportFiles envC9 pkgOld "C:\\VS").1
    ∧ (setupSupportFiles envC9 pkgOld "C:\\VS").1.any isSetFailed = false := by
  have h := c9_amended_logged_not_failed envC9 pkgOld "C:\\VS" 5 4 0 (by decide) (by decide)
  exact ⟨h.1, h.2.1⟩

end SetupSwift
